import Mathlib

/-!
Verification of the discord-nhc-tracker repository's core logic against its
natural-language specification.

The JavaScript source is shallowly embedded in Lean:
  * strings are Lean `String`s; the JavaScript string operations used by the
    program (`split(' ')`, `trim`, `toLowerCase`, `includes`, the regex
    `\d+` first match) are re-implemented over `List Char` so that every
    definition evaluates inside the kernel;
  * timestamps (JavaScript `Date` values) are UTC epoch milliseconds as `Int`;
    the process is assumed to run with a UTC local timezone, under which
    `addDaysToDate` (implemented with `setDate(getDate() + days)`) adds exactly
    `days * 86400000` milliseconds and `toISOString().substring(0, 10)`
    identifies the UTC day index `t / 86400000`;
  * each call to `new Date()` during one run is modelled as the single
    instant `now` of that run;
  * fallible collaborator calls (the Discord REST client, the NHC feed fetch)
    are modelled as `Except String` valued oracles supplied in the run
    environment; `JSON.parse` is modelled as a `String → Option Metadata`
    parameter (`none` means the parse throws);
  * the persisted `metadata.json` file is modelled as an `Option String`
    (`none` means the file is absent / unreadable).
-/

/-! ## JavaScript string operations over `List Char` -/

/-- Whitespace characters removed by JavaScript `String.prototype.trim`
(restricted to the ASCII whitespace actually relevant to chat text). -/
def isJsWhitespace (c : Char) : Bool :=
  c = ' ' || c = '\t' || c = '\n' || c = '\r'

/-- Drops leading and trailing whitespace, modelling `word.trim()`. -/
def trimChars (l : List Char) : List Char :=
  ((l.dropWhile isJsWhitespace).reverse.dropWhile isJsWhitespace).reverse

/-- Models JavaScript `s.trim()`. -/
def jsTrim (s : String) : String :=
  (trimChars s.data).asString

/-- Models JavaScript `s.split(' ')` on character lists: splits at every single
space, keeping empty pieces, and `[[]]` on the empty string. -/
def splitCharsOnSpace : List Char → List (List Char)
  | [] => [[]]
  | c :: cs =>
    if c = ' ' then [] :: splitCharsOnSpace cs
    else
      match splitCharsOnSpace cs with
      | [] => [[c]]
      | w :: ws => (c :: w) :: ws

/-- Models JavaScript `s.split(' ')`. -/
def jsSplitOnSpace (s : String) : List String :=
  (splitCharsOnSpace s.data).map List.asString

/-- All suffixes of a character list, longest first. -/
def suffixesOf : List Char → List (List Char)
  | [] => [[]]
  | c :: cs => (c :: cs) :: suffixesOf cs

/-- Models JavaScript `s.includes(sub)`: some suffix of `s` starts with `sub`. -/
def jsIncludes (s sub : String) : Bool :=
  (suffixesOf s.data).any (fun t => sub.data.isPrefixOf t)

/-- Models JavaScript `s.toLowerCase()` (ASCII case folding, which is all the
program compares: storm classifications such as "Hurricane"). -/
def jsToLower (s : String) : String :=
  (s.data.map Char.toLower).asString

/-- Value of a digit run, modelling JavaScript `Number` on a digit string. -/
def digitsToNat (ds : List Char) : Nat :=
  ds.foldl (fun n c => 10 * n + (c.toNat - 48)) 0

/-- First maximal run of decimal digits in a character list, modelling the
regex match `s.match(/\d+/)` (`none` when the regex does not match). -/
def firstDigitRun : List Char → Option (List Char)
  | [] => none
  | c :: cs =>
    if c.isDigit then some (c :: cs.takeWhile Char.isDigit)
    else firstDigitRun cs

/-! ## Time model (`lib/utils.js` and the scheduler's date arithmetic) -/

def msPerDay : Int := 86400000

def msPerHour : Int := 3600000

/-- Models `addDaysToDate` from `lib/utils.js` at a UTC local timezone, where
`setDate(getDate() + days)` adds exactly `days` civil days, i.e.
`days * 86400000` milliseconds. -/
def addDaysToDate (t : Int) (days : Int) : Int :=
  t + days * msPerDay

/-- UTC day index of an epoch-millisecond timestamp: the day identified by
`toISOString().substring(0, 10)`. -/
def utcDayIndex (t : Int) : Int :=
  t / msPerDay

/-- Models the scheduler's recomputation of `metadata.adminReportNextTime`:
`addDaysToDate(new Date(), 1).toISOString().substring(0, 10)` concatenated
with "T08:00:00.000Z", as an epoch-millisecond timestamp. -/
def nextAdminReportTime (now : Int) : Int :=
  utcDayIndex (addDaysToDate now 1) * msPerDay + 8 * msPerHour

/-- Days between a Gregorian civil date and 1970-01-01 (Howard Hinnant's
`days_from_civil` algorithm), used only to spell concrete timestamps. -/
def daysFromCivil (y m d : Int) : Int :=
  let y' := if m ≤ 2 then y - 1 else y
  let era := (if 0 ≤ y' then y' else y' - 399) / 400
  let yoe := y' - era * 400
  let mp := (m + 9) % 12
  let doy := (153 * mp + 2) / 5 + d - 1
  let doe := yoe * 365 + yoe / 4 - yoe / 100 + doy
  era * 146097 + doe - 719468

/-- Epoch milliseconds of a UTC civil date and time. -/
def msOfUTC (y m d hh mi ss ms : Int) : Int :=
  daysFromCivil y m d * msPerDay + hh * msPerHour + mi * 60000 + ss * 1000 + ms

/-! ## Cyclone records and category derivation (`lib/nhc.js`) -/

/-- A normalized cyclone record as produced by `extractCyclonesFromRSSData` in
`lib/nhc.js`. Feed fields not consumed by the verified operations
(`center`, `datetime`, `movement`, `pressure`, `headline`, `wallet`,
`advisoryPubDate`) are omitted. -/
structure Cyclone where
  atcf : String
  updateGuid : String
  type : String
  name : String
  wind : String
  seasonWallet : String
  hurricaneCategory : Nat
deriving DecidableEq

/-- Wind speed in mph extracted by `Number(cyclone.wind.match(/\d+/)[0])`
inside `try { ... } catch {}`: the first run of digits, or 0 when the regex
does not match (indexing `null[0]` throws and the catch leaves `windMPH = 0`). -/
def windMPHOfDescription (wind : String) : Nat :=
  match firstDigitRun wind.data with
  | none => 0
  | some ds => digitsToNat ds

/-- Saffir-Simpson thresholds from `extractCyclonesFromRSSData`
(`lib/nhc.js` lines 127-137). -/
def saffirSimpsonCategory (windMPH : Nat) : Nat :=
  if windMPH > 156 then 5
  else if windMPH > 129 then 4
  else if windMPH > 110 then 3
  else if windMPH > 95 then 2
  else 1

/-- Derived `hurricaneCategory` for a record carrying both a `type` and a
`wind` field (`lib/nhc.js` lines 119-139): 0 unless
`type.toLowerCase() === 'hurricane'`, otherwise the Saffir-Simpson category of
the extracted wind speed. -/
def hurricaneCategoryOf (type wind : String) : Nat :=
  if jsToLower type = "hurricane" then saffirSimpsonCategory (windMPHOfDescription wind)
  else 0

/-! ## Snapshot differencer (`src/discord-nhc-tracker.js`) -/

/-- Result of `calculateTrackedCycloneUpdates`. -/
structure CycloneUpdates where
  updatedCyclones : List Cyclone
  trackableCycloneIds : List String
deriving DecidableEq

/-- Composition of `buildCycloneMap` and `Map.get`: the last record of
`cycloneData` whose `atcf` equals `atcfId` (later `Map.set` calls overwrite
earlier ones on duplicate keys). -/
def buildCycloneMapGet (cycloneData : List Cyclone) (atcfId : String) : Option Cyclone :=
  cycloneData.foldl (fun found c => if c.atcf = atcfId then some c else found) none

/-- The differencer `calculateTrackedCycloneUpdates`: walks the tracked ids in
order; an id present in the recent snapshot is still trackable, and its recent
record is reported as updated when there is no old record or the `updateGuid`
changed; an id absent from the recent snapshot is dropped. -/
def calculateTrackedCycloneUpdates :
    List String → List Cyclone → List Cyclone → CycloneUpdates
  | [], _, _ => ⟨[], []⟩
  | atcfId :: restIds, oldCycloneData, recentCycloneData =>
    let r := calculateTrackedCycloneUpdates restIds oldCycloneData recentCycloneData
    match buildCycloneMapGet recentCycloneData atcfId with
    | none => r
    | some recentCyclone =>
      match buildCycloneMapGet oldCycloneData atcfId with
      | none => ⟨recentCyclone :: r.updatedCyclones, atcfId :: r.trackableCycloneIds⟩
      | some oldCyclone =>
        if oldCyclone.updateGuid ≠ recentCyclone.updateGuid then
          ⟨recentCyclone :: r.updatedCyclones, atcfId :: r.trackableCycloneIds⟩
        else
          ⟨r.updatedCyclones, atcfId :: r.trackableCycloneIds⟩

/-- Claim-side definition (C1's wording): the record reported as updated for a
tracked id — the current record exactly when it exists and either no previous
record exists for the id or the update tokens differ. -/
def specUpdateDecision (oldCycloneData recentCycloneData : List Cyclone)
    (atcfId : String) : Option Cyclone :=
  match buildCycloneMapGet recentCycloneData atcfId with
  | none => none
  | some recentCyclone =>
    match buildCycloneMapGet oldCycloneData atcfId with
    | none => some recentCyclone
    | some oldCyclone =>
      if oldCyclone.updateGuid ≠ recentCyclone.updateGuid then some recentCyclone else none

/-! ## Chat command scan (`getNewGuildTrackedCyclones`) -/

/-- The chat command marker `guildTrackCycloneCommand`. -/
def guildTrackCycloneCommand : String := "!nhctrack"

/-- A Discord message as consumed by `getNewGuildTrackedCyclones`:
`author.bot`, `timestamp` (epoch milliseconds) and `content`. -/
structure ChatMessage where
  authorBot : Bool
  timestamp : Int
  content : String
deriving DecidableEq

/-- One step of the `recentMessages.forEach` scan: keep the content and date of
the latest non-bot message containing the track command seen so far. -/
def commandScanStep (acc : Option String × Int) (message : ChatMessage) :
    Option String × Int :=
  if !message.authorBot && acc.2 < message.timestamp
      && jsIncludes message.content guildTrackCycloneCommand then
    (some message.content, message.timestamp)
  else acc

/-- Content of the most recent non-bot message containing the track command and
dated within the last 30 days (the scan starts from
`addDaysToDate(new Date(), -30)`). -/
def findRecentCommandContent (now : Int) (messages : List ChatMessage) : Option String :=
  (messages.foldl commandScanStep (none, addDaysToDate now (-30))).1

/-- Models `getNewGuildTrackedCyclones`: the words of the most recent command
message whose trimmed form is the `atcf` id of a recent cyclone (note the
untrimmed word is what gets collected). -/
def getNewGuildTrackedCyclones (now : Int) (messages : List ChatMessage)
    (recentCycloneData : List Cyclone) : List String :=
  match findRecentCommandContent now messages with
  | none => []
  | some content =>
    let recentCycloneIDs := recentCycloneData.map (fun c => c.atcf)
    (jsSplitOnSpace content).filter (fun word => recentCycloneIDs.contains (jsTrim word))

/-! ## Messaging collaborator oracles and report generation -/

/-- Models a `try { await call } catch (error) { logger.info(...) }` block: the
exception, if any, is caught and logged and execution continues. -/
def attempt (r : Except String Unit) : Except String Unit :=
  match r with
  | .ok _ => .ok ()
  | .error _ => .ok ()

/-- Outcomes of the Discord calls `sendAdminCycloneReport` can make during one
run: deleting the previous report (keyed by message id), editing the previous
report, and creating the single new message (returning its id). -/
structure AdminOracle where
  deleteResult : String → Except String Unit
  editResult : Except String String
  createResult : Except String String

/-- Outcomes of the Discord and NHC calls `sendGuildCycloneReports` can make:
unpinning a previous report (keyed by message id), fetching a cone image and
creating an image-attachment message (keyed by the cyclone's `atcf` id), and
pinning a created message (keyed by its id, including the pin-notification
cleanup which can also throw). -/
structure GuildOracle where
  unpinResult : String → Except String Unit
  imageResult : String → Except String Unit
  createImageResult : String → Except String String
  pinResult : String → Except String Unit

/-- Models `sendAdminCycloneReport` (`src/discord-nhc-tracker.js`): with a
non-empty snapshot, best-effort delete of the previous report then a new
message; with an empty snapshot, edit the previous report in place, falling
back to a new message when the edit throws. Message text is not modelled; the
returned value is the id of the resulting report message. -/
def sendAdminCycloneReport (o : AdminOracle) (cycloneData : List Cyclone)
    (lastReportMessageId : Option String) : Except String String :=
  if 0 < cycloneData.length then
    match lastReportMessageId with
    | some lastId =>
      match attempt (o.deleteResult lastId) with
      | .error e => .error e
      | .ok _ => o.createResult
    | none => o.createResult
  else
    match lastReportMessageId with
    | some _ =>
      match o.editResult with
      | .ok messageId => .ok messageId
      | .error _ => o.createResult
    | none => o.createResult

/-- The unpin loop of `sendGuildCycloneReports`: each unpin is wrapped in a
`try`/`catch`, so a failure is logged and the loop continues. -/
def unpinPreviousReports (o : GuildOracle) : List String → Except String Unit
  | [] => .ok ()
  | messageId :: rest =>
    match attempt (o.unpinResult messageId) with
    | .error e => .error e
    | .ok _ => unpinPreviousReports o rest

/-- The creation loop of `sendGuildCycloneReports`: per updated cyclone, fetch
the cone image, create the image-attachment message, pin it; every failure here
propagates. Returns the created message ids in order. -/
def createGuildReports (o : GuildOracle) : List Cyclone → Except String (List String)
  | [] => .ok []
  | cyclone :: rest =>
    match o.imageResult cyclone.atcf with
    | .error e => .error e
    | .ok _ =>
      match o.createImageResult cyclone.atcf with
      | .error e => .error e
      | .ok messageId =>
        match o.pinResult messageId with
        | .error e => .error e
        | .ok _ =>
          match createGuildReports o rest with
          | .error e => .error e
          | .ok restIds => .ok (messageId :: restIds)

/-- Models `sendGuildCycloneReports`: unpin all previous report messages
(best-effort), then create and pin one message per updated cyclone. -/
def sendGuildCycloneReports (o : GuildOracle) (cycloneData : List Cyclone)
    (lastReportMessageIds : List String) : Except String (List String) :=
  match unpinPreviousReports o lastReportMessageIds with
  | .error e => .error e
  | .ok _ => createGuildReports o cycloneData

/-! ## Run state and the main run (`src/discord-nhc-tracker.js`) -/

/-- The persisted run state `Metadata`. `adminReportNextTime` is the parsed
epoch-millisecond value of the stored ISO-8601 string. -/
structure Metadata where
  cyclones : List Cyclone
  adminReportNextTime : Int
  adminReportMessageId : Option String
  guildTrackedCycloneIds : List String
  guildReportMessageIds : List String
deriving DecidableEq

/-- Default metadata set up on a first run: `adminReportNextTime` is set to the
current instant so a new admin report is generated immediately. -/
def defaultMetadata (now : Int) : Metadata :=
  { cyclones := [],
    adminReportNextTime := now,
    adminReportMessageId := none,
    guildTrackedCycloneIds := [],
    guildReportMessageIds := [] }

/-- Models `loadMetadata`: a read failure (absent file, modelled by `none`) is
caught and, like an empty file ( `metadataRaw` falsy), yields the defaults; a
non-empty file is handed to `JSON.parse` outside any `try`, so a parse failure
(modelled by the parser returning `none`) propagates and the load fails. -/
def loadMetadata (jsonParse : String → Option Metadata) (fileContents : Option String)
    (now : Int) : Option Metadata :=
  match fileContents with
  | none => some (defaultMetadata now)
  | some raw => if raw = "" then some (defaultMetadata now) else jsonParse raw

/-- The guild report step of `main` (lines 23-35 of the tracker): when tracked
ids exist, run the differencer against the loaded snapshot, keep only the still
trackable ids, and when updates exist send the guild reports and record the new
message ids. -/
def guildReportStep (o : GuildOracle) (recentCycloneData : List Cyclone)
    (m : Metadata) : Except String Metadata :=
  if 0 < m.guildTrackedCycloneIds.length then
    let r := calculateTrackedCycloneUpdates m.guildTrackedCycloneIds m.cyclones recentCycloneData
    let m' := { m with guildTrackedCycloneIds := r.trackableCycloneIds }
    if 0 < r.updatedCyclones.length then
      match sendGuildCycloneReports o r.updatedCyclones m'.guildReportMessageIds with
      | .error e => .error e
      | .ok newIds => .ok { m' with guildReportMessageIds := newIds }
    else .ok m'
  else .ok m

/-- The admin (digest) report step of `main` (lines 37-44 of the tracker): only
when `new Date() > new Date(metadata.adminReportNextTime)`, send the admin
report and advance the due time to tomorrow's date at 08:00 UTC. -/
def adminReportStep (now : Int) (o : AdminOracle) (recentCycloneData : List Cyclone)
    (m : Metadata) : Except String Metadata :=
  if m.adminReportNextTime < now then
    match sendAdminCycloneReport o recentCycloneData m.adminReportMessageId with
    | .error e => .error e
    | .ok messageId =>
      .ok { m with
            adminReportMessageId := some messageId,
            adminReportNextTime := nextAdminReportTime now }
  else .ok m

/-- Environment of one run: the current instant, the feed fetch outcome, the
recent admin-channel messages, and the messaging oracles. -/
structure RunEnv where
  now : Int
  feedResult : Except String (List Cyclone)
  recentMessages : List ChatMessage
  guild : GuildOracle
  admin : AdminOracle

/-- Models `main` given already-loaded metadata: fetch the feed (a failure
propagates); with a non-empty snapshot replace the tracked ids by the command
scan result; run the guild report step, then the admin report step, and record
the fresh snapshot. Any uncaught collaborator failure aborts the run before
the final state write. -/
def mainRun (env : RunEnv) (metadata0 : Metadata) : Except String Metadata :=
  match env.feedResult with
  | .error e => .error e
  | .ok recentCycloneData =>
    let m1 :=
      if 0 < recentCycloneData.length then
        { metadata0 with guildTrackedCycloneIds :=
            getNewGuildTrackedCyclones env.now env.recentMessages recentCycloneData }
      else metadata0
    match guildReportStep env.guild recentCycloneData m1 with
    | .error e => .error e
    | .ok m2 =>
      match adminReportStep env.now env.admin recentCycloneData m2 with
      | .error e => .error e
      | .ok m3 => .ok { m3 with cyclones := recentCycloneData }

/-- Models one whole invocation including persistence (`index.js` catches any
error after which the process just exits): the state file is rewritten with the
serialized final metadata only when `main` completes; a failed load or a failed
run leaves the previous file contents in place. -/
def runAndPersist (serialize : Metadata → String) (jsonParse : String → Option Metadata)
    (env : RunEnv) (prevFile : Option String) : Option String :=
  match loadMetadata jsonParse prevFile env.now with
  | none => prevFile
  | some metadata0 =>
    match mainRun env metadata0 with
    | .ok m => some (serialize m)
    | .error _ => prevFile

/-! ## Claim-side (specification-worded) definitions -/

/-- Claim-side definition (C2's wording): previously persisted tracked ids
intersected with the current snapshot's keys, unioned with the newly commanded
ids also present in the current snapshot. -/
def specNewTrackedIds (prevTracked commanded : List String)
    (current : List Cyclone) : List String :=
  prevTracked.filter (fun id => (buildCycloneMapGet current id).isSome)
    ++ (commanded.filter (fun id =>
          (buildCycloneMapGet current id).isSome && !prevTracked.contains id))

/-! ## Concrete instances used by witnesses and counterexamples -/

/-- A concrete hurricane record. -/
def cex1 : Cyclone :=
  { atcf := "AL012023", updateGuid := "g1", type := "HURRICANE", name := "Lee",
    wind := "100 mph", seasonWallet := "AT01", hurricaneCategory := 2 }

/-- A concrete record with a different identifier, disjoint from `cex1`. -/
def cex2 : Cyclone :=
  { atcf := "AL022023", updateGuid := "g2", type := "TROPICAL STORM", name := "Max",
    wind := "50 mph", seasonWallet := "AT02", hurricaneCategory := 0 }

/-- Guild oracle on which every call succeeds. -/
def okGuildOracle : GuildOracle :=
  { unpinResult := fun _ => .ok (), imageResult := fun _ => .ok (),
    createImageResult := fun _ => .ok "guildMsg1", pinResult := fun _ => .ok () }

/-- Admin oracle on which every call succeeds. -/
def okAdminOracle : AdminOracle :=
  { deleteResult := fun _ => .ok (), editResult := .ok "editedMsg",
    createResult := .ok "adminMsg1" }

/-- Admin oracle whose best-effort calls (delete, edit) fail but whose create
succeeds. -/
def failingAdminOracle : AdminOracle :=
  { deleteResult := fun _ => .error "deleteFailed", editResult := .error "editFailed",
    createResult := .ok "adminMsg2" }

/-- Admin oracle whose create-message call fails. -/
def failCreateAdminOracle : AdminOracle :=
  { deleteResult := fun _ => .ok (), editResult := .ok "editedMsg",
    createResult := .error "createFailed" }

/-- Admin oracle on which every call fails. -/
def failBothAdminOracle : AdminOracle :=
  { deleteResult := fun _ => .error "boom", editResult := .error "boom",
    createResult := .error "boom" }

/-- Guild oracle whose unpin and create-message calls fail. -/
def failCreateGuildOracle : GuildOracle :=
  { unpinResult := fun _ => .error "unpinFailed", imageResult := fun _ => .ok (),
    createImageResult := fun _ => .error "imgCreateFailed", pinResult := fun _ => .ok () }

/-- An operator chat message issuing the track command for `cex1`. -/
def cmdMessage : ChatMessage :=
  { authorBot := false, timestamp := 5, content := "!nhctrack AL012023" }

/-- Persisted state that already tracks `cex1` and has its record; its digest
due time is in the future relative to `now = 0`. -/
def metaC2 : Metadata :=
  { cyclones := [cex1], adminReportNextTime := 1, adminReportMessageId := none,
    guildTrackedCycloneIds := ["AL012023"], guildReportMessageIds := [] }

/-- Run environment for the C2 counterexample: the feed still carries `cex1`
but the admin channel holds no command message. -/
def envC2 : RunEnv :=
  { now := 0, feedResult := .ok [cex1], recentMessages := [],
    guild := okGuildOracle, admin := okAdminOracle }

/-- First-run-like state with nothing tracked and a future digest due time
relative to `now = 10`. -/
def metaC2w : Metadata :=
  { cyclones := [], adminReportNextTime := 11, adminReportMessageId := none,
    guildTrackedCycloneIds := [], guildReportMessageIds := [] }

/-- Run environment whose admin channel holds a fresh track command. -/
def envC2w : RunEnv :=
  { now := 10, feedResult := .ok [cex1], recentMessages := [cmdMessage],
    guild := okGuildOracle, admin := okAdminOracle }

/-- Expected final state of running `envC2w` from `metaC2w`. -/
def metaC2wFinal : Metadata :=
  { cyclones := [cex1], adminReportNextTime := 11, adminReportMessageId := none,
    guildTrackedCycloneIds := ["AL012023"], guildReportMessageIds := ["guildMsg1"] }

/-- The timestamp 2023-09-10T09:15:00Z of the specification's digest scenario. -/
def exampleNow915 : Int := msOfUTC 2023 9 10 9 15 0 0

/-- The timestamp 2023-09-11T08:00:00.000Z, the scenario's expected due time. -/
def exampleDue : Int := msOfUTC 2023 9 11 8 0 0 0

/-- The timestamp 2023-09-10T08:00:00.000Z: an instant exactly at the fixed
digest hour. -/
def exampleNow8 : Int := msOfUTC 2023 9 10 8 0 0 0

/-- State whose digest due time lies just before `exampleNow8`, so the digest
step fires at `exampleNow8` (and also at `exampleNow915`). -/
def metaBefore8 : Metadata :=
  { cyclones := [], adminReportNextTime := exampleNow8 - 1, adminReportMessageId := none,
    guildTrackedCycloneIds := [], guildReportMessageIds := [] }

/-- Expected state after the digest step fires at `exampleNow8`: the new due
time is exactly `exampleNow8 + 24h`. -/
def metaAfter8 : Metadata :=
  { cyclones := [], adminReportNextTime := exampleNow8 + 86400000,
    adminReportMessageId := some "adminMsg1",
    guildTrackedCycloneIds := [], guildReportMessageIds := [] }

/-- Expected state after the digest step fires at `exampleNow915`. -/
def metaAfter915 : Metadata :=
  { cyclones := [], adminReportNextTime := exampleDue,
    adminReportMessageId := some "adminMsg1",
    guildTrackedCycloneIds := [], guildReportMessageIds := [] }

/-- State whose digest due time equals the current instant `now = 100`. -/
def metaDueEq : Metadata :=
  { cyclones := [cex1], adminReportNextTime := 100, adminReportMessageId := some "prevAdminMsg",
    guildTrackedCycloneIds := [], guildReportMessageIds := [] }

/-- Models `JSON.parse` restricted to inputs on which it throws a
`SyntaxError` — such as the malformed document "\x7b" (a lone opening brace). -/
def rejectingJsonParse : String → Option Metadata := fun _ => none

/-- Stub serializer for the persistence wrapper. -/
def serializeStub : Metadata → String := fun _ => "serialized"

/-- Parser that always yields `metaDueZero`-like loaded state for C7. -/
def parseToMetaDueZero : String → Option Metadata := fun _ => some
  { cyclones := [], adminReportNextTime := 0, adminReportMessageId := none,
    guildTrackedCycloneIds := [], guildReportMessageIds := [] }

/-- State with an already-due digest time relative to `now = 1`. -/
def metaDueZero : Metadata :=
  { cyclones := [], adminReportNextTime := 0, adminReportMessageId := none,
    guildTrackedCycloneIds := [], guildReportMessageIds := [] }

/-- Environment whose feed fetch fails. -/
def envFeedFail : RunEnv :=
  { now := 0, feedResult := .error "feedDown", recentMessages := [],
    guild := okGuildOracle, admin := okAdminOracle }

/-- Environment in which the digest is due and the admin create call fails. -/
def envAdminCreateFail : RunEnv :=
  { now := 1, feedResult := .ok [cex1], recentMessages := [],
    guild := okGuildOracle, admin := failCreateAdminOracle }

/-- Environment in which a fresh track command selects `cex1` and the guild
create-message call fails. -/
def envGuildCreateFail : RunEnv :=
  { now := 10, feedResult := .ok [cex1], recentMessages := [cmdMessage],
    guild := failCreateGuildOracle, admin := okAdminOracle }

/-- Environment of a fully successful (and eventless) run. -/
def envSuccess : RunEnv :=
  { now := 0, feedResult := .ok [], recentMessages := [],
    guild := okGuildOracle, admin := okAdminOracle }

/-! ## Helper lemmas -/

/-- A caught best-effort call never propagates an exception. -/
theorem attempt_ok (r : Except String Unit) : attempt r = .ok () := by
  cases r <;> rfl

/-- The unpin loop never fails, whatever the unpin outcomes are. -/
theorem unpinPreviousReports_ok (o : GuildOracle) :
    ∀ ids : List String, unpinPreviousReports o ids = .ok () := by
  intro ids
  induction ids with
  | nil => rfl
  | cons messageId rest ih =>
    simp only [unpinPreviousReports, attempt_ok]
    exact ih

/-- The guild report result never depends on the unpin outcomes. -/
theorem sendGuildCycloneReports_eq_create (o : GuildOracle) (cycloneData : List Cyclone)
    (lastReportMessageIds : List String) :
    sendGuildCycloneReports o cycloneData lastReportMessageIds = createGuildReports o cycloneData := by
  simp only [sendGuildCycloneReports, unpinPreviousReports_ok]

/-- With a non-empty snapshot the admin report is the created message, whatever
the best-effort delete of the previous report did. -/
theorem sendAdminCycloneReport_nonempty (o : AdminOracle) (cycloneData : List Cyclone)
    (lastReportMessageId : Option String) (h : 0 < cycloneData.length) :
    sendAdminCycloneReport o cycloneData lastReportMessageId = o.createResult := by
  unfold sendAdminCycloneReport
  rw [if_pos h]
  cases lastReportMessageId with
  | none => rfl
  | some lastId => simp only [attempt_ok]

/-- With an empty snapshot and a failing edit, the admin report falls back to
creating a new message. -/
theorem sendAdminCycloneReport_edit_fallback (o : AdminOracle) (lastId e : String)
    (h : o.editResult = .error e) :
    sendAdminCycloneReport o [] (some lastId) = o.createResult := by
  unfold sendAdminCycloneReport
  simp [h]

/-- A result of the map lookup always carries the requested key. -/
theorem buildCycloneMapGet_atcf (cycloneData : List Cyclone) (atcfId : String)
    (c : Cyclone) (h : buildCycloneMapGet cycloneData atcfId = some c) : c.atcf = atcfId := by
  unfold buildCycloneMapGet at h
  have step : ∀ (l : List Cyclone) (acc : Option Cyclone),
      (∀ c', acc = some c' → c'.atcf = atcfId) →
      ∀ c', l.foldl (fun found c'' => if c''.atcf = atcfId then some c'' else found) acc = some c' →
      c'.atcf = atcfId := by
    intro l
    induction l with
    | nil => intro acc hacc c' h'; exact hacc c' h'
    | cons hd tl ih =>
      intro acc hacc c' h'
      refine ih _ ?_ c' h'
      intro c'' hc''
      have hc2 : (if hd.atcf = atcfId then some hd else acc) = some c'' := hc''
      by_cases hhd : hd.atcf = atcfId
      · rw [if_pos hhd] at hc2
        cases hc2
        exact hhd
      · rw [if_neg hhd] at hc2
        exact hacc c'' hc2
  exact step cycloneData none (by intro c' h'; cases h') c h

/-- Keys matching no record are absent from the map. -/
theorem buildCycloneMapGet_eq_none (cycloneData : List Cyclone) (atcfId : String)
    (h : ∀ c ∈ cycloneData, c.atcf ≠ atcfId) : buildCycloneMapGet cycloneData atcfId = none := by
  unfold buildCycloneMapGet
  induction cycloneData with
  | nil => rfl
  | cons hd tl ih =>
    simp only [List.foldl_cons]
    rw [if_neg (h hd (by simp))]
    exact ih (fun c hc => h c (by simp [hc]))

/-- The still-trackable output is exactly the tracked ids filtered by presence
in the recent snapshot, in tracked order. -/
theorem cTCU_trackable_eq (oldData recentData : List Cyclone) :
    ∀ tracked : List String,
      (calculateTrackedCycloneUpdates tracked oldData recentData).trackableCycloneIds
        = tracked.filter (fun id => (buildCycloneMapGet recentData id).isSome) := by
  intro tracked
  induction tracked with
  | nil => rfl
  | cons atcfId rest ih =>
    rw [calculateTrackedCycloneUpdates]
    cases hr : buildCycloneMapGet recentData atcfId with
    | none => simpa [hr] using ih
    | some recentCyclone =>
      cases ho : buildCycloneMapGet oldData atcfId with
      | none => simpa [hr, ho] using congrArg (List.cons atcfId) ih
      | some oldCyclone =>
        by_cases hg : oldCyclone.updateGuid ≠ recentCyclone.updateGuid
        · simpa [hr, ho, hg] using congrArg (List.cons atcfId) ih
        · simpa [hr, ho, hg] using congrArg (List.cons atcfId) ih

/-- The updated output is exactly the tracked ids mapped through the update
decision, in tracked order. -/
theorem cTCU_updated_eq (oldData recentData : List Cyclone) :
    ∀ tracked : List String,
      (calculateTrackedCycloneUpdates tracked oldData recentData).updatedCyclones
        = tracked.filterMap (specUpdateDecision oldData recentData) := by
  intro tracked
  induction tracked with
  | nil => rfl
  | cons atcfId rest ih =>
    rw [calculateTrackedCycloneUpdates]
    cases hr : buildCycloneMapGet recentData atcfId with
    | none => simpa [specUpdateDecision, hr] using ih
    | some recentCyclone =>
      cases ho : buildCycloneMapGet oldData atcfId with
      | none => simpa [specUpdateDecision, hr, ho] using congrArg (List.cons recentCyclone) ih
      | some oldCyclone =>
        by_cases hg : oldCyclone.updateGuid ≠ recentCyclone.updateGuid
        · simpa [specUpdateDecision, hr, ho, hg] using congrArg (List.cons recentCyclone) ih
        · simpa [specUpdateDecision, hr, ho, hg] using ih

/-- A positive update decision returns the recent snapshot's record. -/
theorem specUpdateDecision_some (oldData recentData : List Cyclone) (atcfId : String)
    (c : Cyclone) (h : specUpdateDecision oldData recentData atcfId = some c) :
    buildCycloneMapGet recentData atcfId = some c := by
  cases hr : buildCycloneMapGet recentData atcfId with
  | none => simp [specUpdateDecision, hr] at h
  | some recentCyclone =>
    cases ho : buildCycloneMapGet oldData atcfId with
    | none =>
      simp only [specUpdateDecision, hr, ho] at h
      exact h
    | some oldCyclone =>
      rcases eq_or_ne oldCyclone.updateGuid recentCyclone.updateGuid with hg | hg
      · simp [specUpdateDecision, hr, ho, hg] at h
      · simp only [specUpdateDecision, hr, ho, if_pos hg] at h
        exact h

/-- A wind description with no digit character yields no regex match. -/
theorem firstDigitRun_eq_none (l : List Char) (h : ∀ c ∈ l, c.isDigit = false) :
    firstDigitRun l = none := by
  induction l with
  | nil => rfl
  | cons hd tl ih =>
    rw [firstDigitRun]
    rw [h hd (by simp)]
    simpa using ih (fun c hc => h c (by simp [hc]))

/-- Scanning an empty message list finds no command. -/
theorem getNewGuildTrackedCyclones_no_messages (now : Int) (recentCycloneData : List Cyclone) :
    getNewGuildTrackedCyclones now [] recentCycloneData = [] := rfl

/-- The admin report step changes only the digest fields. -/
theorem adminReportStep_preserves (now : Int) (o : AdminOracle) (data : List Cyclone)
    (m m' : Metadata) (h : adminReportStep now o data m = .ok m') :
    m'.guildTrackedCycloneIds = m.guildTrackedCycloneIds
    ∧ m'.cyclones = m.cyclones
    ∧ m'.guildReportMessageIds = m.guildReportMessageIds := by
  unfold adminReportStep at h
  by_cases hg : m.adminReportNextTime < now
  · rw [if_pos hg] at h
    cases hs : sendAdminCycloneReport o data m.adminReportMessageId with
    | error e => rw [hs] at h; cases h
    | ok messageId =>
      rw [hs] at h
      cases h
      exact ⟨rfl, rfl, rfl⟩
  · rw [if_neg hg] at h
    cases h
    exact ⟨rfl, rfl, rfl⟩

/-- The guild report step filters the tracked ids by presence in the recent
snapshot and leaves the digest fields and the snapshot untouched. -/
theorem guildReportStep_tracked (o : GuildOracle) (data : List Cyclone) (m m' : Metadata)
    (h : guildReportStep o data m = .ok m') :
    m'.guildTrackedCycloneIds
      = m.guildTrackedCycloneIds.filter (fun id => (buildCycloneMapGet data id).isSome)
    ∧ m'.adminReportNextTime = m.adminReportNextTime
    ∧ m'.adminReportMessageId = m.adminReportMessageId
    ∧ m'.cyclones = m.cyclones := by
  unfold guildReportStep at h
  by_cases hg : 0 < m.guildTrackedCycloneIds.length
  · rw [if_pos hg] at h
    by_cases hu :
        0 < (calculateTrackedCycloneUpdates m.guildTrackedCycloneIds m.cyclones data).updatedCyclones.length
    · rw [if_pos hu] at h
      cases hs : sendGuildCycloneReports o
          (calculateTrackedCycloneUpdates m.guildTrackedCycloneIds m.cyclones data).updatedCyclones
          m.guildReportMessageIds with
      | error e => rw [hs] at h; cases h
      | ok newIds =>
        rw [hs] at h
        cases h
        exact ⟨cTCU_trackable_eq m.cyclones data m.guildTrackedCycloneIds, rfl, rfl, rfl⟩
    · rw [if_neg hu] at h
      cases h
      exact ⟨cTCU_trackable_eq m.cyclones data m.guildTrackedCycloneIds, rfl, rfl, rfl⟩
  · rw [if_neg hg] at h
    cases h
    have hnil : m.guildTrackedCycloneIds = [] := by
      cases hl : m.guildTrackedCycloneIds with
      | nil => rfl
      | cons a l => rw [hl] at hg; simp at hg
    rw [hnil]
    exact ⟨rfl, rfl, rfl, rfl⟩

/-- Two differencer results with empty fields are the empty result. -/
theorem CycloneUpdates_eq_empty (x : CycloneUpdates)
    (hu : x.updatedCyclones = []) (ht : x.trackableCycloneIds = []) :
    x = ⟨[], []⟩ := by
  cases x
  simp_all

/-! ## Claim theorems -/

/-- C1: for every tracked-identifier sequence, previous snapshot and current
snapshot, the differencer's still-trackable output is exactly the tracked ids
(in their iteration order) that have a record in the current snapshot, and its
updated output is exactly, in the same order, the current records of those
tracked ids for which no previous record exists or the update tokens differ;
ids absent from the current snapshot appear in neither output. -/
theorem claim_C1_differencer_characterization :
    ∀ (trackedCycloneIds : List String) (oldCycloneData recentCycloneData : List Cyclone),
      (calculateTrackedCycloneUpdates trackedCycloneIds oldCycloneData recentCycloneData).trackableCycloneIds
        = trackedCycloneIds.filter (fun id => (buildCycloneMapGet recentCycloneData id).isSome)
      ∧ (calculateTrackedCycloneUpdates trackedCycloneIds oldCycloneData recentCycloneData).updatedCyclones
        = trackedCycloneIds.filterMap (specUpdateDecision oldCycloneData recentCycloneData) :=
  fun tracked old recent =>
    ⟨cTCU_trackable_eq old recent tracked, cTCU_updated_eq old recent tracked⟩

/-- C9 (amended): for disjoint previous/current snapshots, the differencer
returns empty outputs provided the tracked ids are drawn from the previous
snapshot's identifiers (which holds for persisted state across runs). -/
theorem claim_C9_disjoint_snapshots (trackedCycloneIds : List String)
    (oldCycloneData recentCycloneData : List Cyclone)
    (htracked : ∀ id ∈ trackedCycloneIds, id ∈ oldCycloneData.map (fun c => c.atcf))
    (hdisjoint : ∀ id ∈ oldCycloneData.map (fun c => c.atcf),
        id ∉ recentCycloneData.map (fun c => c.atcf)) :
    calculateTrackedCycloneUpdates trackedCycloneIds oldCycloneData recentCycloneData = ⟨[], []⟩ := by
  have hnone : ∀ id ∈ trackedCycloneIds, buildCycloneMapGet recentCycloneData id = none := by
    intro id hid
    refine buildCycloneMapGet_eq_none _ _ ?_
    intro c hc hatcf
    exact hdisjoint id (htracked id hid) (List.mem_map.mpr ⟨c, hc, hatcf⟩)
  refine CycloneUpdates_eq_empty _ ?_ ?_
  · rw [cTCU_updated_eq]
    refine List.filterMap_eq_nil_iff.mpr ?_
    intro id hid
    simp [specUpdateDecision, hnone id hid]
  · rw [cTCU_trackable_eq]
    refine List.filter_eq_nil_iff.mpr ?_
    intro id hid
    simp [hnone id hid]

/-- C9 counterexample: with an empty previous snapshot (trivially disjoint from
the current one) and a tracked id carried by the current snapshot, the
differencer's outputs are not empty, refuting the claim as stated. -/
theorem claim_C9_counterexample :
    calculateTrackedCycloneUpdates ["AL012023"] [] [cex1] = ⟨[cex1], ["AL012023"]⟩
    ∧ calculateTrackedCycloneUpdates ["AL012023"] [] [cex1] ≠ ⟨[], []⟩ := by
  constructor
  · decide
  · decide

/-- C9 witness: a disjoint pair of snapshots with the tracked id drawn from the
previous snapshot yields empty outputs. -/
theorem claim_C9_witness :
    calculateTrackedCycloneUpdates ["AL012023"] [cex1] [cex2] = ⟨[], []⟩ :=
  claim_C9_disjoint_snapshots ["AL012023"] [cex1] [cex2] (by decide) (by decide)

/-- C10: the still-trackable output is a subsequence of the tracked-identifier
input, and every record in the updated output has its `atcf` identifier in the
still-trackable output. -/
theorem claim_C10_output_invariants :
    ∀ (trackedCycloneIds : List String) (oldCycloneData recentCycloneData : List Cyclone),
      ((calculateTrackedCycloneUpdates trackedCycloneIds oldCycloneData recentCycloneData).trackableCycloneIds).Sublist
          trackedCycloneIds
      ∧ ∀ c ∈ (calculateTrackedCycloneUpdates trackedCycloneIds oldCycloneData recentCycloneData).updatedCyclones,
          c.atcf ∈ (calculateTrackedCycloneUpdates trackedCycloneIds oldCycloneData recentCycloneData).trackableCycloneIds := by
  intro tracked old recent
  constructor
  · rw [cTCU_trackable_eq]
    exact List.filter_sublist tracked
  · intro c hc
    rw [cTCU_updated_eq] at hc
    rcases List.mem_filterMap.mp hc with ⟨id, hid, hdec⟩
    have hget := specUpdateDecision_some old recent id c hdec
    have hatcf := buildCycloneMapGet_atcf recent id c hget
    rw [cTCU_trackable_eq, hatcf]
    exact List.mem_filter.mpr ⟨hid, by simp [hget]⟩

/-- C10 witness at a concrete input: the updated record's id is still
trackable, and the still-trackable output is a subsequence of the input. -/
theorem claim_C10_witness :
    cex1.atcf ∈ (calculateTrackedCycloneUpdates ["AL012023"] [] [cex1]).trackableCycloneIds
    ∧ ((calculateTrackedCycloneUpdates ["AL012023"] [] [cex1]).trackableCycloneIds).Sublist ["AL012023"] :=
  ⟨(claim_C10_output_invariants ["AL012023"] [] [cex1]).2 cex1 (by decide),
   (claim_C10_output_invariants ["AL012023"] [] [cex1]).1⟩

/-- C3: categories are derived only for hurricane-classified records (0
otherwise, extraction skipped); the wind is the first run of digits (0 when
there are none, giving category 1); the thresholds are boundary-exact, with the
claim's concrete boundary examples. -/
theorem claim_C3_category_derivation :
    ∀ (type wind : String),
      (jsToLower type ≠ "hurricane" → hurricaneCategoryOf type wind = 0)
      ∧ (jsToLower type = "hurricane" →
          ((∀ c ∈ wind.data, c.isDigit = false) → hurricaneCategoryOf type wind = 1)
          ∧ (hurricaneCategoryOf type wind = 5 ↔ 156 < windMPHOfDescription wind)
          ∧ (hurricaneCategoryOf type wind = 4 ↔
              129 < windMPHOfDescription wind ∧ windMPHOfDescription wind ≤ 156)
          ∧ (hurricaneCategoryOf type wind = 3 ↔
              110 < windMPHOfDescription wind ∧ windMPHOfDescription wind ≤ 129)
          ∧ (hurricaneCategoryOf type wind = 2 ↔
              95 < windMPHOfDescription wind ∧ windMPHOfDescription wind ≤ 110)
          ∧ (hurricaneCategoryOf type wind = 1 ↔ windMPHOfDescription wind ≤ 95))
      ∧ hurricaneCategoryOf "HURRICANE" "156 mph" = 4
      ∧ hurricaneCategoryOf "HURRICANE" "157 mph" = 5
      ∧ hurricaneCategoryOf "HURRICANE" "130 mph" = 4
      ∧ hurricaneCategoryOf "HURRICANE" "111 mph" = 3
      ∧ hurricaneCategoryOf "HURRICANE" "96 mph" = 2
      ∧ hurricaneCategoryOf "HURRICANE" "10 mph" = 1
      ∧ hurricaneCategoryOf "HURRICANE" "no digit winds" = 1 := by
  intro type wind
  refine ⟨?_, ?_, by decide, by decide, by decide, by decide, by decide, by decide, by decide⟩
  · intro h
    unfold hurricaneCategoryOf
    rw [if_neg h]
  · intro h
    unfold hurricaneCategoryOf
    rw [if_pos h]
    refine ⟨?_, ?_, ?_, ?_, ?_, ?_⟩
    · intro hnd
      have h0 : windMPHOfDescription wind = 0 := by
        unfold windMPHOfDescription
        rw [firstDigitRun_eq_none wind.data hnd]
      rw [h0]
      decide
    all_goals (unfold saffirSimpsonCategory; split_ifs <;> omega)

/-- C3 witness: concrete records with the theorem's hypotheses discharged — a
non-hurricane record gets category 0, a 100 mph hurricane gets category 2. -/
theorem claim_C3_witness :
    hurricaneCategoryOf "Tropical Storm" "60 mph" = 0
    ∧ hurricaneCategoryOf "Hurricane" "100 mph" = 2 :=
  ⟨(claim_C3_category_derivation "Tropical Storm" "60 mph").1 (by decide),
   (((claim_C3_category_derivation "Hurricane" "100 mph").2.1 (by decide)).2.2.2.2.1).mpr (by decide)⟩

/-- C4 (amended): whenever the digest step fires, the recomputed due time is
the day after "now" at the fixed hour 08:00 UTC — strictly after now, never the
same day — and it equals now + 24h exactly when now is itself at 08:00:00.000
UTC (refuting "never now plus 24 hours" only in that boundary instant); the
specification's scenario value is reproduced. -/
theorem claim_C4_digest_due_time (now : Int) (o : AdminOracle)
    (recentCycloneData : List Cyclone) (m m' : Metadata)
    (hdue : m.adminReportNextTime < now)
    (hstep : adminReportStep now o recentCycloneData m = .ok m') :
    m'.adminReportNextTime = (utcDayIndex now + 1) * msPerDay + 8 * msPerHour
    ∧ now < m'.adminReportNextTime
    ∧ utcDayIndex m'.adminReportNextTime = utcDayIndex now + 1
    ∧ (m'.adminReportNextTime = now + msPerDay ↔ now % msPerDay = 8 * msPerHour)
    ∧ nextAdminReportTime exampleNow915 = exampleDue := by
  have hdue' : m'.adminReportNextTime = nextAdminReportTime now := by
    unfold adminReportStep at hstep
    rw [if_pos hdue] at hstep
    cases hs : sendAdminCycloneReport o recentCycloneData m.adminReportMessageId with
    | error e => rw [hs] at hstep; cases hstep
    | ok messageId => rw [hs] at hstep; cases hstep; rfl
  rw [hdue']
  refine ⟨?_, ?_, ?_, ?_, by decide⟩
  all_goals (unfold nextAdminReportTime utcDayIndex addDaysToDate msPerDay msPerHour; omega)

/-- C4 counterexample: when the digest step fires at exactly 08:00:00.000 UTC
(here 2023-09-10T08:00:00Z), the recomputed due time is exactly now plus 24
hours, refuting the claim's "never now plus 24 hours". -/
theorem claim_C4_counterexample :
    adminReportStep exampleNow8 okAdminOracle [] metaBefore8 = .ok metaAfter8
    ∧ metaAfter8.adminReportNextTime = exampleNow8 + 86400000 :=
  ⟨rfl, rfl⟩

/-- C4 witness: the amended theorem at the specification's scenario instant
2023-09-10T09:15:00Z, where the recomputed due time is 2023-09-11T08:00:00.000Z. -/
theorem claim_C4_witness :
    metaAfter915.adminReportNextTime = (utcDayIndex exampleNow915 + 1) * msPerDay + 8 * msPerHour
    ∧ exampleNow915 < metaAfter915.adminReportNextTime
    ∧ utcDayIndex metaAfter915.adminReportNextTime = utcDayIndex exampleNow915 + 1
    ∧ (metaAfter915.adminReportNextTime = exampleNow915 + msPerDay ↔
        exampleNow915 % msPerDay = 8 * msPerHour)
    ∧ nextAdminReportTime exampleNow915 = exampleDue :=
  claim_C4_digest_due_time exampleNow915 okAdminOracle [] metaBefore8 metaAfter915
    (by decide) rfl

/-- C5 (amended): the digest step fires exactly when the current time is
strictly after the due time; when the due time is at or after now the step is a
no-op — the state (including `adminReportMessageId` and `adminReportNextTime`)
is returned unchanged, no collaborator call is consulted, and running the step
twice is still a no-op; when it fires and the report call succeeds, the message
id is recorded and the due time advanced. -/
theorem claim_C5_digest_guard :
    ∀ (now : Int) (o : AdminOracle) (recentCycloneData : List Cyclone) (m : Metadata),
      (now ≤ m.adminReportNextTime →
        adminReportStep now o recentCycloneData m = .ok m
        ∧ (adminReportStep now o recentCycloneData m).bind
            (adminReportStep now o recentCycloneData) = .ok m)
      ∧ ∀ messageId : String, m.adminReportNextTime < now →
          sendAdminCycloneReport o recentCycloneData m.adminReportMessageId = .ok messageId →
          adminReportStep now o recentCycloneData m
            = .ok { m with
                    adminReportMessageId := some messageId,
                    adminReportNextTime := nextAdminReportTime now } := by
  intro now o recentCycloneData m
  constructor
  · intro h
    have h1 : adminReportStep now o recentCycloneData m = .ok m := by
      unfold adminReportStep
      rw [if_neg (not_lt.mpr h)]
    refine ⟨h1, ?_⟩
    rw [h1]
    exact h1
  · intro messageId hlt hsend
    unfold adminReportStep
    rw [if_pos hlt, hsend]

/-- C5 counterexample: with the current time exactly equal to the due time
("at or after" holds) the code does not fire: the state is returned unchanged
and no message is created or edited (the supplied oracle would have failed any
such call). -/
theorem claim_C5_counterexample :
    metaDueEq.adminReportNextTime = 100
    ∧ adminReportStep 100 failBothAdminOracle [cex1] metaDueEq = .ok metaDueEq :=
  ⟨rfl, rfl⟩

/-- C5 witness: the no-op (and repeated no-op) at a future due time, and the
firing behavior when strictly past due. -/
theorem claim_C5_witness :
    (adminReportStep 100 failBothAdminOracle [cex1] metaDueEq = .ok metaDueEq
      ∧ (adminReportStep 100 failBothAdminOracle [cex1] metaDueEq).bind
          (adminReportStep 100 failBothAdminOracle [cex1]) = .ok metaDueEq)
    ∧ adminReportStep 1 okAdminOracle [] metaDueZero
        = .ok { metaDueZero with
                adminReportMessageId := some "adminMsg1",
                adminReportNextTime := nextAdminReportTime 1 } :=
  ⟨(claim_C5_digest_guard 100 failBothAdminOracle [cex1] metaDueEq).1 (by decide),
   (claim_C5_digest_guard 1 okAdminOracle [] metaDueZero).2 "adminMsg1" (by decide) rfl⟩

/-- C6 (amended): loading returns the default first-run structure when the
state file is absent (the read failure is caught) or empty; but a present,
non-empty file is handed to `JSON.parse` outside the `try`, so its outcome —
including a thrown parse error on malformed contents — propagates. -/
theorem claim_C6_load_metadata (jsonParse : String → Option Metadata) (now : Int) :
    loadMetadata jsonParse none now = some (defaultMetadata now)
    ∧ loadMetadata jsonParse (some "") now = some (defaultMetadata now)
    ∧ ∀ raw : String, raw ≠ "" → loadMetadata jsonParse (some raw) now = jsonParse raw := by
  refine ⟨rfl, ?_, ?_⟩
  · simp [loadMetadata]
  · intro raw h
    simp [loadMetadata, h]

/-- C6 counterexample: a present file holding the malformed document "\x7b"
(on which `JSON.parse` throws) makes the load fail — it does not fall back to
the defaults, refuting "loading never fails"; an absent file does default. -/
theorem claim_C6_counterexample :
    loadMetadata rejectingJsonParse (some "\x7b") 0 = none
    ∧ loadMetadata rejectingJsonParse none 0 = some (defaultMetadata 0) :=
  ⟨rfl, rfl⟩

/-- C6 witness: the amended theorem at the malformed document and at the
absent file. -/
theorem claim_C6_witness :
    loadMetadata rejectingJsonParse (some "\x7b") 0 = rejectingJsonParse "\x7b"
    ∧ loadMetadata rejectingJsonParse none 0 = some (defaultMetadata 0) :=
  ⟨(claim_C6_load_metadata rejectingJsonParse 0).2.2 "\x7b" (by decide),
   (claim_C6_load_metadata rejectingJsonParse 0).1⟩

/-- C8: every best-effort cleanup failure is caught and the run continues — the
unpin loop never fails, the guild report result never depends on the unpin
outcomes, a failing delete of the previous digest still ends in the replacement
message being created, and a failing in-place edit on the empty-snapshot path
still ends in the fallback message being created. -/
theorem claim_C8_best_effort_cleanup :
    (∀ (o : GuildOracle) (ids : List String), unpinPreviousReports o ids = .ok ())
    ∧ (∀ (o : GuildOracle) (cycloneData : List Cyclone) (lastIds : List String),
        sendGuildCycloneReports o cycloneData lastIds = createGuildReports o cycloneData)
    ∧ (∀ (o : AdminOracle) (cycloneData : List Cyclone) (lastId e : String),
        0 < cycloneData.length → o.deleteResult lastId = .error e →
        sendAdminCycloneReport o cycloneData (some lastId) = o.createResult)
    ∧ (∀ (o : AdminOracle) (lastId e : String), o.editResult = .error e →
        sendAdminCycloneReport o [] (some lastId) = o.createResult) := by
  refine ⟨unpinPreviousReports_ok, sendGuildCycloneReports_eq_create, ?_, ?_⟩
  · intro o cycloneData lastId e hlen _
    exact sendAdminCycloneReport_nonempty o cycloneData (some lastId) hlen
  · intro o lastId e h
    exact sendAdminCycloneReport_edit_fallback o lastId e h

/-- C8 witness: concrete failing cleanup calls — the unpin loop succeeds, the
guild report is unaffected, and both admin paths still create the replacement
message "adminMsg2". -/
theorem claim_C8_witness :
    unpinPreviousReports failCreateGuildOracle ["m1", "m2"] = .ok ()
    ∧ sendGuildCycloneReports failCreateGuildOracle [cex1] ["m1"]
        = createGuildReports failCreateGuildOracle [cex1]
    ∧ sendAdminCycloneReport failingAdminOracle [cex1] (some "prevAdminMsg")
        = failingAdminOracle.createResult
    ∧ sendAdminCycloneReport failingAdminOracle [] (some "prevAdminMsg")
        = failingAdminOracle.createResult
    ∧ failingAdminOracle.createResult = .ok "adminMsg2" :=
  ⟨claim_C8_best_effort_cleanup.1 failCreateGuildOracle ["m1", "m2"],
   claim_C8_best_effort_cleanup.2.1 failCreateGuildOracle [cex1] ["m1"],
   claim_C8_best_effort_cleanup.2.2.1 failingAdminOracle [cex1] "prevAdminMsg" "deleteFailed"
     (by decide) rfl,
   claim_C8_best_effort_cleanup.2.2.2 failingAdminOracle "prevAdminMsg" "editFailed" rfl,
   rfl⟩

/-- C7: state is persisted only at the end of a fully successful run — a
failed load or failed run leaves the previous file contents intact, a feed
fetch failure propagates out of the run, and so does a create-message failure
in either the digest path or the broadcast path once reached. -/
theorem claim_C7_all_or_nothing :
    (∀ (serialize : Metadata → String) (jsonParse : String → Option Metadata)
        (env : RunEnv) (prevFile : Option String) (m0 : Metadata) (e : String),
        loadMetadata jsonParse prevFile env.now = some m0 →
        mainRun env m0 = .error e →
        runAndPersist serialize jsonParse env prevFile = prevFile)
    ∧ (∀ (serialize : Metadata → String) (jsonParse : String → Option Metadata)
        (env : RunEnv) (prevFile : Option String) (m0 m : Metadata),
        loadMetadata jsonParse prevFile env.now = some m0 →
        mainRun env m0 = .ok m →
        runAndPersist serialize jsonParse env prevFile = some (serialize m))
    ∧ (∀ (env : RunEnv) (m0 : Metadata) (e : String),
        env.feedResult = .error e → mainRun env m0 = .error e)
    ∧ (∀ (env : RunEnv) (m0 : Metadata) (recentCycloneData : List Cyclone) (e : String),
        env.feedResult = .ok recentCycloneData → 0 < recentCycloneData.length →
        env.recentMessages = [] →
        m0.adminReportNextTime < env.now →
        env.admin.createResult = .error e →
        mainRun env m0 = .error e)
    ∧ (∀ (env : RunEnv) (m0 : Metadata) (c : Cyclone) (e : String),
        env.feedResult = .ok [c] → m0.cyclones = [] →
        getNewGuildTrackedCyclones env.now env.recentMessages [c] = [c.atcf] →
        env.guild.imageResult c.atcf = .ok () →
        env.guild.createImageResult c.atcf = .error e →
        mainRun env m0 = .error e) := by
  refine ⟨?_, ?_, ?_, ?_, ?_⟩
  · intro serialize jsonParse env prevFile m0 e hload hrun
    simp only [runAndPersist, hload, hrun]
  · intro serialize jsonParse env prevFile m0 m hload hrun
    simp only [runAndPersist, hload, hrun]
  · intro env m0 e hfeed
    simp only [mainRun, hfeed]
  · intro env m0 recentCycloneData e hfeed hlen hmsgs hdue hcreate
    simp only [mainRun, hfeed]
    rw [if_pos hlen]
    have hscan : getNewGuildTrackedCyclones env.now env.recentMessages recentCycloneData = [] := by
      rw [hmsgs]
      exact getNewGuildTrackedCyclones_no_messages env.now recentCycloneData
    rw [hscan]
    have hguild : guildReportStep env.guild recentCycloneData
        { m0 with guildTrackedCycloneIds := [] }
        = .ok { m0 with guildTrackedCycloneIds := [] } := by
      simp [guildReportStep]
    rw [hguild]
    have hadmin : adminReportStep env.now env.admin recentCycloneData
        { m0 with guildTrackedCycloneIds := [] } = .error e := by
      unfold adminReportStep
      rw [if_pos (by simpa using hdue)]
      rw [sendAdminCycloneReport_nonempty _ _ _ hlen, hcreate]
    simp only [hadmin]
  · intro env m0 c e hfeed hcyc hscan himg hcreate
    simp only [mainRun, hfeed]
    rw [if_pos (by simp : 0 < ([c] : List Cyclone).length)]
    rw [hscan]
    have hr : calculateTrackedCycloneUpdates [c.atcf]
        ({ m0 with guildTrackedCycloneIds := [c.atcf] }).cyclones [c] = ⟨[c], [c.atcf]⟩ := by
      show calculateTrackedCycloneUpdates [c.atcf] m0.cyclones [c] = ⟨[c], [c.atcf]⟩
      rw [hcyc]
      simp [calculateTrackedCycloneUpdates, buildCycloneMapGet]
    have hsend : sendGuildCycloneReports env.guild [c] m0.guildReportMessageIds = .error e := by
      rw [sendGuildCycloneReports_eq_create]
      simp only [createGuildReports, himg, hcreate]
    have hguild : guildReportStep env.guild [c] { m0 with guildTrackedCycloneIds := [c.atcf] }
        = .error e := by
      unfold guildReportStep
      rw [if_pos (by simp)]
      rw [hr]
      rw [if_pos (by simp)]
      simp only [hsend]
    rw [hguild]

/-- C7 witness: a failed feed fetch, a failed digest create and a failed
broadcast create each abort the run; with the failed digest create the state
file keeps its previous contents, while a successful run rewrites it. -/
theorem claim_C7_witness :
    mainRun envFeedFail metaDueZero = .error "feedDown"
    ∧ mainRun envAdminCreateFail metaDueZero = .error "createFailed"
    ∧ mainRun envGuildCreateFail metaC2w = .error "imgCreateFailed"
    ∧ runAndPersist serializeStub parseToMetaDueZero envAdminCreateFail (some "oldContents")
        = some "oldContents"
    ∧ runAndPersist serializeStub parseToMetaDueZero envSuccess (some "oldContents")
        = some "serialized" :=
  ⟨claim_C7_all_or_nothing.2.2.1 envFeedFail metaDueZero "feedDown" rfl,
   claim_C7_all_or_nothing.2.2.2.1 envAdminCreateFail metaDueZero [cex1] "createFailed"
     rfl (by decide) rfl (by decide) rfl,
   claim_C7_all_or_nothing.2.2.2.2 envGuildCreateFail metaC2w cex1 "imgCreateFailed"
     rfl rfl (by decide) rfl rfl,
   claim_C7_all_or_nothing.1 serializeStub parseToMetaDueZero envAdminCreateFail
     (some "oldContents") metaDueZero "createFailed" rfl
     (claim_C7_all_or_nothing.2.2.2.1 envAdminCreateFail metaDueZero [cex1] "createFailed"
       rfl (by decide) rfl (by decide) rfl),
   claim_C7_all_or_nothing.2.1 serializeStub parseToMetaDueZero envSuccess
     (some "oldContents") metaDueZero metaDueZero rfl rfl⟩

/-- C2 (amended): on every successful run with a non-empty current snapshot,
the persisted tracked-identifier set equals the newly-commanded identifiers
(the command-scan result) filtered by presence in the current snapshot; the
previously persisted tracked identifiers do not contribute. -/
theorem claim_C2_tracked_recompute (env : RunEnv) (metadata0 : Metadata)
    (recentCycloneData : List Cyclone) (m : Metadata)
    (hfeed : env.feedResult = .ok recentCycloneData)
    (hlen : 0 < recentCycloneData.length)
    (hrun : mainRun env metadata0 = .ok m) :
    m.guildTrackedCycloneIds
      = (getNewGuildTrackedCyclones env.now env.recentMessages recentCycloneData).filter
          (fun id => (buildCycloneMapGet recentCycloneData id).isSome) := by
  simp only [mainRun, hfeed] at hrun
  rw [if_pos hlen] at hrun
  generalize hM1 : ({ metadata0 with guildTrackedCycloneIds := getNewGuildTrackedCyclones env.now env.recentMessages recentCycloneData } : Metadata) = m1 at hrun
  cases hg : guildReportStep env.guild recentCycloneData m1 with
  | error e => rw [hg] at hrun; cases hrun
  | ok m2 =>
    rw [hg] at hrun
    dsimp only at hrun
    cases ha : adminReportStep env.now env.admin recentCycloneData m2 with
    | error e => rw [ha] at hrun; cases hrun
    | ok m3 =>
      rw [ha] at hrun
      dsimp only at hrun
      cases hrun
      have h2 := (guildReportStep_tracked env.guild recentCycloneData m1 m2 hg).1
      have h3 := (adminReportStep_preserves env.now env.admin recentCycloneData m2 m3 ha).1
      show m3.guildTrackedCycloneIds = _
      rw [h3, h2, ← hM1]

/-- C2 counterexample: a run whose snapshot still carries the previously
tracked storm but whose admin channel holds no command message empties the
tracked set, while the claim's intersection-union recipe keeps the storm. -/
theorem claim_C2_counterexample :
    Except.map (fun m => m.guildTrackedCycloneIds) (mainRun envC2 metaC2) = .ok []
    ∧ getNewGuildTrackedCyclones envC2.now envC2.recentMessages [cex1] = []
    ∧ specNewTrackedIds metaC2.guildTrackedCycloneIds
        (getNewGuildTrackedCyclones envC2.now envC2.recentMessages [cex1]) [cex1]
      = ["AL012023"] :=
  ⟨rfl, rfl, rfl⟩

/-- C2 witness: a run with a fresh track command persists exactly the commanded
identifier present in the snapshot. -/
theorem claim_C2_witness :
    metaC2wFinal.guildTrackedCycloneIds
      = (getNewGuildTrackedCyclones envC2w.now envC2w.recentMessages [cex1]).filter
          (fun id => (buildCycloneMapGet [cex1] id).isSome) :=
  claim_C2_tracked_recompute envC2w metaC2w [cex1] metaC2wFinal rfl (by decide) rfl
